import Mathlib

/-!
Verification of the mmCoreAndDevices device-adapter sources
(ThorlabsUSBCamera.cpp and IntegratedLaserEngine.cpp) against their
natural-language specification.  The C++ is shallowly embedded: adapter
member state becomes a record, each member function becomes a pure
function from the state and the results of the external calls it makes
(vendor SDK and host callbacks) to its return code and successor state.
-/

set_option autoImplicit false

namespace MMAdapters

/-! ### Host and vendor status codes

Modelled from the spec: the fixed host error-code enumeration is the set of
DEVICE_* status codes of the platform header MMDeviceConstants.h together
with the adapter-defined ERR_* codes; those headers belong to this
repository but are not under src/.  The DEVICE_* codes are the consecutive
small nonnegative integers 0..41; the adapters reference a handful of them
by name with the standard values used below. -/

def DEVICE_OK : Int := 0

def DEVICE_ERR : Int := 1

def DEVICE_BUFFER_OVERFLOW : Int := 22

def DEVICE_CAMERA_BUSY_ACQUIRING : Int := 30

def DEVICE_LOCALLY_DEFINED_ERROR : Int := 34

def DEVICE_NOT_CONNECTED : Int := 35

/-- Modelled from the spec: the DEVICE_* status-code block of
MMDeviceConstants.h (not under src/), the codes 0..41. -/
def hostDeviceStatusCodes : List Int := (List.range 42).map Int.ofNat

/-- Modelled from the spec: camera-adapter specific error code declared in
ThorlabsUSBCamera.h (not under src/).  The exact numeric value is immaterial
to the claims; what matters is that it is a fixed nonnegative adapter code
distinct from DEVICE_OK. -/
def ERR_THORCAM_LIVE_TIMEOUT : Int := 101

/-- Modelled from the spec: camera-adapter specific error code declared in
ThorlabsUSBCamera.h (not under src/). -/
def ERR_THORCAM_LIVE_UNKNOWN_EVENT : Int := 102

/-- Modelled from the spec: camera-adapter specific error code declared in
ThorlabsUSBCamera.h (not under src/). -/
def ERR_THORCAM_UNKNOWN_PIXEL_TYPE : Int := 103

/-- Modelled from the spec: laser-engine adapter specific error code declared
in IntegratedLaserEngine.h (not under src/). -/
def ERR_DEVICE_INDEXINVALID : Int := 110

/-- Modelled from the spec: the fixed host error-code enumeration visible to
the host: the DEVICE_* block plus the camera adapter's own ERR_* codes. -/
def hostErrorCodes : List Int :=
  hostDeviceStatusCodes ++
    [ERR_THORCAM_LIVE_TIMEOUT, ERR_THORCAM_LIVE_UNKNOWN_EVENT,
     ERR_THORCAM_UNKNOWN_PIXEL_TYPE]

/-- uc480 vendor SDK success code (IS_SUCCESS). -/
def IS_SUCCESS : Int := 0

/-- uc480 vendor SDK generic failure code (IS_NO_SUCCESS). -/
def IS_NO_SUCCESS : Int := -1

/-! ### ThorlabsUSBCam: data model -/

/-- Sensor geometry mirrored from is_GetSensorInfo (fields nMaxWidth and
nMaxHeight of SENSORINFO). -/
structure SensorInfo where
  nMaxWidth : Nat
  nMaxHeight : Nat
deriving DecidableEq, Repr

/-- The adapter-owned image buffer img_ (an ImgBuffer): its width, height and
byte depth, as reported by img_.Width(), img_.Height() and img_.Depth(). -/
structure ImgBuffer where
  width : Nat
  height : Nat
  depth : Nat
deriving DecidableEq, Repr

/-- img_.Resize(w, h): resize keeping the current pixel byte depth. -/
def ImgBuffer.resize2 (img : ImgBuffer) (w h : Nat) : ImgBuffer :=
  { img with width := w, height := h }

/-- img_.Resize(w, h, d): resize setting the pixel byte depth. -/
def ImgBuffer.resize3 (_img : ImgBuffer) (w h d : Nat) : ImgBuffer :=
  ⟨w, h, d⟩

/-- Member state of ThorlabsUSBCam together with the state of its
MySequenceThread thd_.  The source keeps binSize_ as a C++ long, but the
only values it is ever assigned are 1 (constructor) and binFactor with
0 < binFactor < 10 (OnBinning), so it is carried as a Nat.  The thread's
intervalMs_ member is stored by Start but never read by the loop, and the
floating-point fps member feeds only the read-only FPS property; neither is
observable by any claim and they are omitted. -/
structure CamState where
  initialized : Bool
  bitDepth : Nat
  roiX : Nat
  roiY : Nat
  binSize : Nat
  nComponents : Nat
  img : ImgBuffer
  sensorInfo : SensorInfo
  /-- cameraBuf != 0: driver frame memory currently allocated. -/
  cameraBufAllocated : Bool
  /-- hEvent != 0: frame event handle created. -/
  hEvent : Bool
  /-- ThorlabsUSBCam::imageCounter_ (a long). -/
  imageCounter : Int
  /-- ThorlabsUSBCam::sequenceStartTime_ in milliseconds. -/
  sequenceStartTime : Int
  stopOnOverFlow : Bool
  /-- MySequenceThread::stop_. -/
  thdStopped : Bool
  /-- MySequenceThread::suspend_. -/
  thdSuspended : Bool
  /-- MySequenceThread::numImages_ (a long). -/
  thdNumImages : Int
  /-- MySequenceThread::imageCounter_ (a long). -/
  thdImageCounter : Int
deriving DecidableEq, Repr

/-- ThorlabsUSBCam::IsCapturing: returns !thd_->IsStopped(). -/
def isCapturing (s : CamState) : Bool :=
  ! s.thdStopped

/-- Results of the vendor SDK calls made by ResizeImageBuffer:
is_FreeImageMem and is_AllocImageMem.  (is_SetImageMem's return value is
ignored by the source.) -/
structure ResizeEnv where
  freeRet : Int
  allocRet : Int
deriving DecidableEq, Repr

/-- ThorlabsUSBCam::ResizeImageBuffer: frees the driver frame memory if
allocated, allocates sensorInfo.nMaxWidth/binSize_ by
sensorInfo.nMaxHeight/binSize_ at byteDepth = (bitDepth_ == 8 ? 1 : 2)
bytes, makes it active, and resizes img_ to the same geometry. -/
def resizeImageBuffer (s : CamState) (env : ResizeEnv) : Int × CamState :=
  if s.cameraBufAllocated ∧ env.freeRet ≠ IS_SUCCESS then
    (env.freeRet, s)
  else
    let s1 := { s with cameraBufAllocated := false }
    if env.allocRet ≠ IS_SUCCESS then
      (env.allocRet, s1)
    else
      let byteDepth : Nat := if s.bitDepth = 8 then 1 else 2
      (DEVICE_OK,
        { s1 with
          cameraBufAllocated := true,
          img := s1.img.resize3 (s.sensorInfo.nMaxWidth / s.binSize)
            (s.sensorInfo.nMaxHeight / s.binSize) byteDepth })

/-- ThorlabsUSBCam::SetROI(x, y, xSize, ySize): with xSize and ySize both
zero it clears the ROI (ResizeImageBuffer, return value discarded, then the
origin is reset); otherwise it resizes img_ to the requested size and stores
the origin.  Always returns DEVICE_OK. -/
def setROI (s : CamState) (x y xSize ySize : Nat) (env : ResizeEnv) :
    Int × CamState :=
  if xSize = 0 ∧ ySize = 0 then
    let s1 := (resizeImageBuffer s env).2
    (DEVICE_OK, { s1 with roiX := 0, roiY := 0 })
  else
    (DEVICE_OK, { s with img := s.img.resize2 xSize ySize, roiX := x, roiY := y })

/-- ThorlabsUSBCam::GetROI: reports (roiX_, roiY_, img_.Width(),
img_.Height()) and returns DEVICE_OK. -/
def getROI (s : CamState) : Int × Nat × Nat × Nat × Nat :=
  (DEVICE_OK, s.roiX, s.roiY, s.img.width, s.img.height)

/-- ThorlabsUSBCam::ClearROI: ResizeImageBuffer (return value discarded),
origin reset, DEVICE_OK. -/
def clearROI (s : CamState) (env : ResizeEnv) : Int × CamState :=
  let s1 := (resizeImageBuffer s env).2
  (DEVICE_OK, { s1 with roiX := 0, roiY := 0 })

/-! ### ThorlabsUSBCam: sequence acquisition -/

/-- Results of the two host circular-buffer insertion attempts that
ThorlabsUSBCam::InsertImage may make through the core callback
(GetCoreCallback()->InsertImage). -/
structure InsertEnv where
  firstInsertRet : Int
  retryInsertRet : Int
deriving DecidableEq, Repr

/-- Observable outcome of ThorlabsUSBCam::InsertImage: its return code,
whether GetCoreCallback()->ClearImageBuffer was invoked, and how many times
the core InsertImage callback was invoked. -/
structure InsertOutcome where
  ret : Int
  clearedBuffer : Bool
  coreInsertCalls : Nat
deriving DecidableEq, Repr

/-- ThorlabsUSBCam::InsertImage: stamps metadata, increments imageCounter_,
inserts the frame into the host circular buffer; if that insertion reports
DEVICE_BUFFER_OVERFLOW and stopOnOverFlow_ is false it clears the host
buffer and retries the insertion once, returning the retry's result;
otherwise it returns the first result. -/
def insertImage (s : CamState) (env : InsertEnv) : InsertOutcome × CamState :=
  let s1 := { s with imageCounter := s.imageCounter + 1 }
  if ¬ s.stopOnOverFlow ∧ env.firstInsertRet = DEVICE_BUFFER_OVERFLOW then
    (⟨env.retryInsertRet, true, 2⟩, s1)
  else
    (⟨env.firstInsertRet, false, 1⟩, s1)

/-- Results of the external calls made by StartSequenceAcquisition:
GetCoreCallback()->PrepareForAcq, is_CaptureVideo, and the current time
GetCurrentMMTime (milliseconds).  (CreateEvent, is_InitEvent and
is_EnableEvent have their return values ignored by the source.) -/
structure StartSeqEnv where
  prepareAcqRet : Int
  captureVideoRet : Int
  now : Int
deriving DecidableEq, Repr

/-- ThorlabsUSBCam::StartSequenceAcquisition(numImages, interval_ms,
stopOnOverflow): refuses with DEVICE_CAMERA_BUSY_ACQUIRING while capturing;
otherwise prepares the host for acquisition, records the start time, resets
imageCounter_, creates and enables the frame event, starts live capture,
starts the thread (MySequenceThread::Start) and records stopOnOverFlow_. -/
def startSequenceAcquisition (s : CamState) (numImages : Int)
    (stopOnOverflow : Bool) (env : StartSeqEnv) : Int × CamState :=
  if isCapturing s then
    (DEVICE_CAMERA_BUSY_ACQUIRING, s)
  else if env.prepareAcqRet ≠ DEVICE_OK then
    (env.prepareAcqRet, s)
  else
    let s1 := { s with
      sequenceStartTime := env.now,
      imageCounter := 0,
      hEvent := true }
    if env.captureVideoRet ≠ IS_SUCCESS then
      (env.captureVideoRet, s1)
    else
      (DEVICE_OK, { s1 with
        thdNumImages := numImages,
        thdImageCounter := 0,
        thdStopped := false,
        thdSuspended := false,
        stopOnOverFlow := stopOnOverflow })

/-- Outcome of WaitForSingleObject on the frame event. -/
inductive WaitStatus where
  | timeout
  | object0
  | failed (code : Nat)
deriving DecidableEq, Repr

/-- WaitForSingleObject(hEvent, 2000) when the next frame event fires
eventDelay milliseconds after the wait begins (none when no event fires):
the wait returns WAIT_OBJECT_0 after eventDelay ms if the event fires
within the 2000 ms window, and WAIT_TIMEOUT after the full 2000 ms
otherwise.  The second component is the time the caller stays blocked. -/
def waitForFrame (eventDelay : Option Nat) : WaitStatus × Nat :=
  match eventDelay with
  | some d => if d < 2000 then (WaitStatus.object0, d) else (WaitStatus.timeout, 2000)
  | none => (WaitStatus.timeout, 2000)

/-- ThorlabsUSBCam::ThreadRun: blocks on the frame event with the fixed
2000 ms timeout; on timeout it returns ERR_THORCAM_LIVE_TIMEOUT, on
WAIT_OBJECT_0 it copies the driver frame into img_ and returns
InsertImage's result, and on any other wait status it returns
ERR_THORCAM_LIVE_UNKNOWN_EVENT. -/
def threadRun (wait : WaitStatus) (insertRet : Int) : Int :=
  match wait with
  | WaitStatus.timeout => ERR_THORCAM_LIVE_TIMEOUT
  | WaitStatus.object0 => insertRet
  | WaitStatus.failed _ => ERR_THORCAM_LIVE_UNKNOWN_EVENT

/-- Inputs consumed by one iteration of MySequenceThread::svc: the wait
status ThreadRun's WaitForSingleObject returns, the result InsertImage
would report for the captured frame, and the value of stop_ observed by
the single IsStopped() check in the loop guard. -/
structure IterEnv where
  wait : WaitStatus
  insertRet : Int
  stopObserved : Bool
deriving DecidableEq, Repr

/-- The do/while loop of MySequenceThread::svc: each iteration runs
ThreadRun, then evaluates the guard
DEVICE_OK == ret && !IsStopped() && imageCounter_++ < numImages_-1
with C++ short-circuiting (the counter is incremented only when the first
two conjuncts hold).  Returns the final ret together with the number of
completed iterations; none when the supplied environment list is exhausted
with the loop still running. -/
def svcLoop (n : Int) : List IterEnv → Int → Option (Int × Nat)
  | [], _ => none
  | e :: es, c =>
    let ret := threadRun e.wait e.insertRet
    if ret = DEVICE_OK ∧ e.stopObserved = false then
      if c < n - 1 then
        (svcLoop n es (c + 1)).map (fun p => (p.1, p.2 + 1))
      else
        some (ret, 1)
    else
      some (ret, 1)

/-- Timeline of an acquisition in which every frame is inserted
successfully (insertRet = DEVICE_OK) and Stop() is issued at absolute time
T: iteration after iteration, the wait blocks for its full duration and the
stop flag observed by the guard that follows is whether T has passed by
then.  The elapsed argument is the absolute time at which the iteration's
wait begins. -/
def stopScenario (T : Nat) : List (Option Nat) → Nat → List IterEnv
  | [], _ => []
  | d :: ds, elapsed =>
    { wait := (waitForFrame d).1,
      insertRet := DEVICE_OK,
      stopObserved := decide (T ≤ elapsed + (waitForFrame d).2) } ::
      stopScenario T ds (elapsed + (waitForFrame d).2)

/-- Absolute time at which the guard after iteration k evaluates: the sum
of the first k wait durations. -/
def clockAfter (delays : List (Option Nat)) (k : Nat) : Nat :=
  ((delays.take k).map (fun d => (waitForFrame d).2)).sum

/-! ### ThorlabsUSBCam: property handlers and Initialize -/

/-- Allowed value "8bit" of the PixelType property. -/
def g_PixelType_8bit : String := "8bit"

/-- Allowed value "16bit" of the PixelType property. -/
def g_PixelType_16bit : String := "16bit"

/-- ThorlabsUSBCam::OnBinning, MM::AfterSet branch: refuses while
capturing; for 0 < binFactor < 10 resizes img_ to
sensorInfo.nMaxWidth/binFactor by sensorInfo.nMaxHeight/binFactor (pixel
depth unchanged) and stores binSize_, returning DEVICE_OK; any other
factor leaves the ret variable at its initial DEVICE_ERR. -/
def onBinningAfterSet (s : CamState) (binFactor : Int) : Int × CamState :=
  if isCapturing s then
    (DEVICE_CAMERA_BUSY_ACQUIRING, s)
  else if 0 < binFactor ∧ binFactor < 10 then
    let b := binFactor.toNat
    (DEVICE_OK, { s with
      img := s.img.resize2 (s.sensorInfo.nMaxWidth / b) (s.sensorInfo.nMaxHeight / b),
      binSize := b })
  else
    (DEVICE_ERR, s)

/-- ThorlabsUSBCam::OnPixelType, MM::AfterSet branch: refuses while
capturing; "8bit" sets RAW8 colour mode, bitDepth_ = 8 and resizes the
buffer; "16bit" sets RAW16, bitDepth_ = 16 and resizes the buffer; any
other string falls back to the 8-bit defaults and reports
ERR_THORCAM_UNKNOWN_PIXEL_TYPE. -/
def onPixelTypeAfterSet (s : CamState) (pixelType : String)
    (setColorRet : Int) (env : ResizeEnv) : Int × CamState :=
  if isCapturing s then
    (DEVICE_CAMERA_BUSY_ACQUIRING, s)
  else if pixelType = g_PixelType_8bit then
    if setColorRet ≠ IS_SUCCESS then
      (setColorRet, s)
    else
      resizeImageBuffer { s with bitDepth := 8, nComponents := 1 } env
  else if pixelType = g_PixelType_16bit then
    if setColorRet ≠ IS_SUCCESS then
      (setColorRet, s)
    else
      resizeImageBuffer { s with bitDepth := 16, nComponents := 1 } env
  else
    (ERR_THORCAM_UNKNOWN_PIXEL_TYPE, { s with nComponents := 1, bitDepth := 8 })

/-- Results of the external calls made by ThorlabsUSBCam::Initialize, in
source order: the six vendor SDK calls (is_InitCamera, is_GetCameraInfo,
is_GetSensorInfo with the sensor data it reports, is_SetDisplayMode,
is_SetColorMode, is_PixelClock GET_RANGE), the checked host calls
(SetAllowedBinning, SetAllowedValues for PixelType, UpdateStatus) and the
SDK calls of the final ResizeImageBuffer.  Calls whose return value the
source ignores or only asserts on (CreateProperty, SetPropertyLimits,
is_PixelClock GET) are not represented. -/
structure InitEnv where
  initCameraRet : Int
  getCameraInfoRet : Int
  getSensorInfoRet : Int
  sensor : SensorInfo
  setDisplayModeRet : Int
  setColorModeRet : Int
  setAllowedBinningRet : Int
  setAllowedPixelRet : Int
  pixelClockRangeRet : Int
  updateStatusRet : Int
  resizeEnv : ResizeEnv
deriving DecidableEq, Repr

/-- The final initialized_ = true assignment of Initialize. -/
def markInitialized (s : CamState) : CamState :=
  { s with initialized := true }

/-- ThorlabsUSBCam::Initialize: returns DEVICE_OK at once when already
initialized; otherwise performs the SDK and host calls in source order,
returning the failing call's own return code at the first failure, and
only sets initialized_ after everything, including the final
ResizeImageBuffer, succeeded. -/
def thorInit (s : CamState) (env : InitEnv) : Int × CamState :=
  if s.initialized then
    (DEVICE_OK, s)
  else if env.initCameraRet ≠ IS_SUCCESS then
    (env.initCameraRet, s)
  else if env.getCameraInfoRet ≠ IS_SUCCESS then
    (env.getCameraInfoRet, s)
  else if env.getSensorInfoRet ≠ IS_SUCCESS then
    (env.getSensorInfoRet, s)
  else
    let s1 := { s with sensorInfo := env.sensor }
    if env.setDisplayModeRet ≠ IS_SUCCESS then
      (env.setDisplayModeRet, s1)
    else if env.setColorModeRet ≠ IS_SUCCESS then
      (env.setColorModeRet, s1)
    else
      let s2 := { s1 with bitDepth := 8 }
      if env.setAllowedBinningRet ≠ DEVICE_OK then
        (env.setAllowedBinningRet, s2)
      else if env.setAllowedPixelRet ≠ DEVICE_OK then
        (env.setAllowedPixelRet, s2)
      else if env.pixelClockRangeRet ≠ IS_SUCCESS then
        (env.pixelClockRangeRet, s2)
      else if env.updateStatusRet ≠ DEVICE_OK then
        (env.updateStatusRet, s2)
      else
        let r := resizeImageBuffer s2 env.resizeEnv
        if r.1 ≠ DEVICE_OK then
          r
        else
          (DEVICE_OK, markInitialized r.2)

/-! ### ThorlabsUSBCam: lock discipline

The claims about the pixel mutex imgPixelsLock_ are structural: which
atomic actions each member function performs, and whether the frame copy
happens between an acquisition and the matching release of the lock.  Each
function is embedded as its straight-line sequence of atomic operations
(for the branch under consideration); MMThreadGuard is an RAII guard whose
construction acquires the lock and whose destruction at scope exit releases
it, and imgPixelsLock_ is re-entrant, so nesting is counted by depth. -/

/-- Atomic operations of the camera adapter relevant to the pixel lock. -/
inductive CamOp where
  /-- MMThreadGuard on imgPixelsLock_ acquires the lock. -/
  | lockPixels
  /-- The guard leaves scope and releases imgPixelsLock_. -/
  | unlockPixels
  /-- memcpy from the driver-owned cameraBuf into img_.GetPixelsRW(). -/
  | copyFrame
  /-- img_.GetPixels(): read access to the adapter-owned buffer. -/
  | readPixels
  /-- is_FreezeVideo. -/
  | sdkFreezeVideo
  /-- WaitForSingleObject on the frame event. -/
  | sdkWaitEvent
  /-- GetCoreCallback()->InsertImage. -/
  | coreInsertImage
  /-- GetCoreCallback()->ClearImageBuffer. -/
  | coreClearBuffer
deriving DecidableEq, Repr

/-- Every occurrence of the target operation happens while the lock depth
is positive. -/
def opsUnderLock (target : CamOp) : List CamOp → Nat → Bool
  | [], _ => true
  | op :: rest, depth =>
    if op = CamOp.lockPixels then
      opsUnderLock target rest (depth + 1)
    else if op = CamOp.unlockPixels then
      opsUnderLock target rest (depth - 1)
    else if op = target then
      decide (0 < depth) && opsUnderLock target rest depth
    else
      opsUnderLock target rest depth

/-- Every occurrence of the target operation happens while the lock depth
is zero, i.e. with the pixel mutex not held. -/
def opsOutsideLock (target : CamOp) : List CamOp → Nat → Bool
  | [], _ => true
  | op :: rest, depth =>
    if op = CamOp.lockPixels then
      opsOutsideLock target rest (depth + 1)
    else if op = CamOp.unlockPixels then
      opsOutsideLock target rest (depth - 1)
    else if op = target then
      decide (depth = 0) && opsOutsideLock target rest depth
    else
      opsOutsideLock target rest depth

/-- ThorlabsUSBCam::GetImageBuffer: constructs an MMThreadGuard on
imgPixelsLock_, reads img_.GetPixels(), and returns (releasing the guard). -/
def getImageBufferOps : List CamOp :=
  [CamOp.lockPixels, CamOp.readPixels, CamOp.unlockPixels]

/-- ThorlabsUSBCam::SnapImage when is_FreezeVideo succeeds: the freeze,
then the memcpy of cameraBuf into img_; no guard is constructed. -/
def snapImageOps : List CamOp :=
  [CamOp.sdkFreezeVideo, CamOp.copyFrame]

/-- ThorlabsUSBCam::InsertImage: constructs an MMThreadGuard, calls
GetImageBuffer (which nests its own guard), inserts the frame through the
core callback, and when the insertion overflowed with stopOnOverFlow_
false clears the host buffer and retries once; the guard is released on
return. -/
def insertImageOps (stopOnOverFlow : Bool) (firstInsertRet : Int) : List CamOp :=
  [CamOp.lockPixels] ++ getImageBufferOps ++ [CamOp.coreInsertImage] ++
    (if ¬ stopOnOverFlow ∧ firstInsertRet = DEVICE_BUFFER_OVERFLOW then
      [CamOp.coreClearBuffer, CamOp.coreInsertImage]
    else
      []) ++
    [CamOp.unlockPixels]

/-- ThorlabsUSBCam::ThreadRun: the wait, and in the WAIT_OBJECT_0 branch
the memcpy of cameraBuf into img_ (no guard is constructed around it)
followed by InsertImage. -/
def threadRunOps (wait : WaitStatus) (stopOnOverFlow : Bool)
    (firstInsertRet : Int) : List CamOp :=
  match wait with
  | WaitStatus.timeout => [CamOp.sdkWaitEvent]
  | WaitStatus.object0 =>
    [CamOp.sdkWaitEvent, CamOp.copyFrame] ++ insertImageOps stopOnOverFlow firstInsertRet
  | WaitStatus.failed _ => [CamOp.sdkWaitEvent]

/-! ### ThorlabsUSBCam: buffer/settings invariant -/

/-- The adapter image buffer matches the current binning and pixel-depth
settings: width = nMaxWidth/binSize_, height = nMaxHeight/binSize_, and
byte depth 1 for the 8-bit pixel type and 2 for the 16-bit one. -/
def bufferMatchesSettings (s : CamState) : Bool :=
  (s.img.width = s.sensorInfo.nMaxWidth / s.binSize) &&
    (s.img.height = s.sensorInfo.nMaxHeight / s.binSize) &&
    (s.img.depth = if s.bitDepth = 8 then 1 else 2)

/-! ### IntegratedLaserEngine: module factory -/

/-- Kinds of device object the laser-engine module can construct: a
CSingleILE, or a CDualILE whose constructor argument records whether it is
the 700 variant. -/
inductive ILEDeviceKind where
  | singleILE
  | dualILE (ile700 : Bool)
deriving DecidableEq, Repr

/-- The three registered device-name constants CSingleILE::g_DeviceName,
CDualILE::g_DualDeviceName and CDualILE::g_Dual700DeviceName.  Modelled
from the spec: their string values live in SingleILE.cpp and DualILE.cpp,
which are not under src/; the claims depend only on the names themselves,
so they are carried abstractly. -/
structure ILENames where
  singleName : String
  dualName : String
  dual700Name : String
deriving DecidableEq, Repr

/-- The device names InitializeModuleData registers, in order. -/
def registeredILENames (nm : ILENames) : List String :=
  [nm.singleName, nm.dualName, nm.dual700Name]

/-- The laser-engine module's CreateDevice: null argument yields a null
pointer; otherwise the argument is strcmp'd against the single, dual and
dual-700 names in that order, constructing the matching object, and any
other name yields a null pointer. -/
def createDevice (nm : ILENames) (deviceName : Option String) :
    Option ILEDeviceKind :=
  match deviceName with
  | none => none
  | some s =>
    if s = nm.singleName then
      some ILEDeviceKind.singleILE
    else if s = nm.dualName then
      some (ILEDeviceKind.dualILE false)
    else if s = nm.dual700Name then
      some (ILEDeviceKind.dualILE true)
    else
      none

/-! ### IntegratedLaserEngine: device-selection property handler -/

/-- The two property-action phases passed to the handlers. -/
inductive MMAction where
  | beforeGet
  | afterSet
deriving DecidableEq, Repr

/-- The value of the C++ long DeviceIndex after its implicit conversion to
size_t in the comparison with DevicesNames_.size(): reduction modulo
2^64 (Euclidean, hence nonnegative). -/
def asSizeT (i : Int) : Nat :=
  (i % (2 : Int) ^ 64).toNat

/-- CIntegratedLaserEngine::OnDeviceChange: rejects an out-of-range
DeviceIndex with ERR_DEVICE_INDEXINVALID before touching DevicesNames_;
BeforeGet publishes DevicesNames_[DeviceIndex] to the property (third
component: the value written to the property, none when nothing is
written), AfterSet stores the property value into
DevicesNames_[DeviceIndex] (second component: the resulting array). -/
def onDeviceChange (names : List String) (deviceIndex : Int) (act : MMAction)
    (propValue : String) : Int × List String × Option String :=
  if names.length ≤ asSizeT deviceIndex then
    (ERR_DEVICE_INDEXINVALID, names, none)
  else
    match act with
    | MMAction.beforeGet => (DEVICE_OK, names, names.get? (asSizeT deviceIndex))
    | MMAction.afterSet =>
      (DEVICE_OK, names.set (asSizeT deviceIndex) propValue, none)

/-! ### IntegratedLaserEngine: shutter interface -/

/-- Behaviour of the CLasers object held in Lasers_.  Modelled from the
spec: Lasers.cpp is not under src/; the claims under test concern only the
branch where no CLasers object was obtained, so its behaviour is carried
abstractly (the return code its SetOpen produces, and the flag its GetOpen
writes through its reference argument). -/
structure LasersModel where
  setOpenRet : Bool → Int
  getOpenVal : Bool

/-- State of CIntegratedLaserEngine relevant to the shutter interface:
whether initialization completed and the Lasers_ pointer (none when no
laser interface was obtained). -/
structure ILEState where
  ileInitialized : Bool
  lasers : Option LasersModel

/-- CIntegratedLaserEngine::SetOpen: forwards to Lasers_->SetOpen when a
CLasers object exists, otherwise returns DEVICE_OK having done nothing.
The second component is the (unchanged) adapter state. -/
def setOpen (s : ILEState) (openFlag : Bool) : Int × ILEState :=
  match s.lasers with
  | some l => (l.setOpenRet openFlag, s)
  | none => (DEVICE_OK, s)

/-- CIntegratedLaserEngine::GetOpen: initialises the out-parameter Open to
false, lets Lasers_->GetOpen overwrite it when a CLasers object exists,
and always returns DEVICE_OK.  The second component is the reported Open
flag. -/
def getOpen (s : ILEState) : Int × Bool :=
  match s.lasers with
  | some l => (DEVICE_OK, l.getOpenVal)
  | none => (DEVICE_OK, false)

/-! ### Sample states used by witnesses and counterexamples -/

/-- A camera state as reached after a successful Initialize on an idle
camera: 1280x1024 sensor, binning 1, 8-bit pixels, full-frame buffer. -/
def sampleCamState : CamState :=
  { initialized := true
    bitDepth := 8
    roiX := 0
    roiY := 0
    binSize := 1
    nComponents := 1
    img := ⟨1280, 1024, 1⟩
    sensorInfo := ⟨1280, 1024⟩
    cameraBufAllocated := true
    hEvent := false
    imageCounter := 0
    sequenceStartTime := 0
    stopOnOverFlow := false
    thdStopped := true
    thdSuspended := false
    thdNumImages := 0
    thdImageCounter := 0 }

/-- The camera state as left by the constructor, before Initialize. -/
def freshCamState : CamState :=
  { sampleCamState with initialized := false, cameraBufAllocated := false }

/-! ### Claims -/

/-- Claim C1: in InsertImage, when the first insertion into the host
circular buffer reports DEVICE_BUFFER_OVERFLOW and stop-on-overflow was
requested false, the adapter clears the host image buffer and retries the
insertion exactly once, returning the result of that single retry and not
touching the thread's stop flag; with stop-on-overflow true the overflow
code is returned immediately with no retry. -/
theorem insertImage_overflow_retry (s : CamState) (env : InsertEnv)
    (h : env.firstInsertRet = DEVICE_BUFFER_OVERFLOW) :
    (s.stopOnOverFlow = false →
      (insertImage s env).1 = ⟨env.retryInsertRet, true, 2⟩) ∧
    (s.stopOnOverFlow = true →
      (insertImage s env).1 = ⟨DEVICE_BUFFER_OVERFLOW, false, 1⟩) ∧
    (insertImage s env).2.thdStopped = s.thdStopped := by
  refine ⟨fun hs => ?_, fun hs => ?_, ?_⟩
  · simp [insertImage, hs, h]
  · simp [insertImage, hs, h]
  · unfold insertImage
    split <;> rfl

/-- Witness for C1: concrete overflow on the first insertion with
stop-on-overflow false; the retry's result (DEVICE_OK) is returned after
one buffer clear and exactly two core insert calls. -/
theorem insertImage_overflow_retry_witness :
    (insertImage sampleCamState ⟨DEVICE_BUFFER_OVERFLOW, DEVICE_OK⟩).1 =
      ⟨DEVICE_OK, true, 2⟩ :=
  (insertImage_overflow_retry sampleCamState ⟨DEVICE_BUFFER_OVERFLOW, DEVICE_OK⟩
    rfl).1 rfl

/-- Claim C3: StartSequenceAcquisition called while the sequence thread is
not stopped (IsCapturing() true) returns DEVICE_CAMERA_BUSY_ACQUIRING and
leaves the adapter state unchanged. -/
theorem startSequenceAcquisition_busy (s : CamState) (n : Int) (sof : Bool)
    (env : StartSeqEnv) (h : isCapturing s = true) :
    startSequenceAcquisition s n sof env = (DEVICE_CAMERA_BUSY_ACQUIRING, s) := by
  simp [startSequenceAcquisition, h]

/-- Witness for C3: a concrete capturing state is refused untouched. -/
theorem startSequenceAcquisition_busy_witness :
    startSequenceAcquisition { sampleCamState with thdStopped := false } 10 false
        ⟨DEVICE_OK, IS_SUCCESS, 0⟩ =
      (DEVICE_CAMERA_BUSY_ACQUIRING, { sampleCamState with thdStopped := false }) :=
  startSequenceAcquisition_busy { sampleCamState with thdStopped := false } 10
    false ⟨DEVICE_OK, IS_SUCCESS, 0⟩ rfl

/-- Counterexample to C5 as stated: it is not the case that the frame
copies of both SnapImage and ThreadRun happen under the pixel mutex; the
copy in SnapImage (and likewise in ThreadRun's WAIT_OBJECT_0 branch)
occurs at lock depth zero. -/
theorem copy_under_lock_counterexample :
    ¬ (opsUnderLock CamOp.copyFrame snapImageOps 0 = true ∧
        opsUnderLock CamOp.copyFrame
          (threadRunOps WaitStatus.object0 false DEVICE_OK) 0 = true) := by
  decide

/-- Claim C5 (amended): the copies of the driver-owned frame buffer into
the adapter-owned image buffer in SnapImage and in ThreadRun are performed
without holding the pixel mutex; only the buffer reads of GetImageBuffer
and InsertImage are performed under it. -/
theorem copy_lock_discipline :
    (∀ (sof : Bool) (r : Int),
      opsOutsideLock CamOp.copyFrame (threadRunOps WaitStatus.object0 sof r) 0
          = true ∧
      (threadRunOps WaitStatus.object0 sof r).contains CamOp.copyFrame = true) ∧
    opsOutsideLock CamOp.copyFrame snapImageOps 0 = true ∧
    snapImageOps.contains CamOp.copyFrame = true ∧
    opsUnderLock CamOp.readPixels getImageBufferOps 0 = true ∧
    ∀ (sof : Bool) (r : Int),
      opsUnderLock CamOp.readPixels (insertImageOps sof r) 0 = true := by
  have hins : ∀ (sof : Bool) (r : Int),
      insertImageOps sof r =
        [CamOp.lockPixels] ++ getImageBufferOps ++ [CamOp.coreInsertImage] ++
          (if ¬ sof = true ∧ r = DEVICE_BUFFER_OVERFLOW then
            [CamOp.coreClearBuffer, CamOp.coreInsertImage]
          else []) ++ [CamOp.unlockPixels] := fun _ _ => rfl
  refine ⟨fun sof r => ?_, by decide, by decide, by decide, fun sof r => ?_⟩
  · by_cases hc : ¬ sof = true ∧ r = DEVICE_BUFFER_OVERFLOW
    · simp only [threadRunOps, hins, if_pos hc]
      decide
    · simp only [threadRunOps, hins, if_neg hc]
      decide
  · by_cases hc : ¬ sof = true ∧ r = DEVICE_BUFFER_OVERFLOW
    · simp only [hins, if_pos hc]
      decide
    · simp only [hins, if_neg hc]
      decide

/-- Claim C10: with no CLasers object obtained (Lasers_ null), SetOpen
returns DEVICE_OK leaving the state unchanged for every input, and GetOpen
returns DEVICE_OK reporting the shutter closed. -/
theorem shutter_null_lasers (s : ILEState) (b : Bool) (h : s.lasers = none) :
    setOpen s b = (DEVICE_OK, s) ∧ getOpen s = (DEVICE_OK, false) := by
  constructor
  · simp [setOpen, h]
  · simp [getOpen, h]

/-- Witness for C10: a concrete laser-less state. -/
theorem shutter_null_lasers_witness :
    setOpen ⟨true, none⟩ true = (DEVICE_OK, ⟨true, none⟩) ∧
    getOpen ⟨true, none⟩ = (DEVICE_OK, false) :=
  shutter_null_lasers ⟨true, none⟩ true rfl

/-- Claim C7: the laser-engine module's CreateDevice returns a newly
created device exactly when its argument equals one of the three
registered device names — a single-ILE object for the single-device name,
a dual-ILE object for the dual-device name, a dual-ILE-700 object for the
dual-700 name — and a null pointer for a null argument or any other
name.  The three registered names are pairwise distinct. -/
theorem createDevice_names_spec (nm : ILENames)
    (h1 : nm.dualName ≠ nm.singleName) (h2 : nm.dual700Name ≠ nm.singleName)
    (h3 : nm.dual700Name ≠ nm.dualName) :
    createDevice nm none = none ∧
    ∀ s : String,
      (createDevice nm (some s) = some ILEDeviceKind.singleILE ↔
        s = nm.singleName) ∧
      (createDevice nm (some s) = some (ILEDeviceKind.dualILE false) ↔
        s = nm.dualName) ∧
      (createDevice nm (some s) = some (ILEDeviceKind.dualILE true) ↔
        s = nm.dual700Name) ∧
      (createDevice nm (some s) = none ↔ s ∉ registeredILENames nm) := by
  refine ⟨rfl, fun s => ?_⟩
  unfold createDevice registeredILENames
  by_cases e1 : s = nm.singleName
  · subst e1
    simp [Ne.symm h1, Ne.symm h2]
  · by_cases e2 : s = nm.dualName
    · subst e2
      simp [e1, Ne.symm h3]
    · by_cases e3 : s = nm.dual700Name
      · subst e3
        simp [e1, e2]
      · simp [e1, e2, e3]

/-- Witness for C7: concrete distinct names; the dual-700 name yields the
dual-ILE-700 object and an unknown name yields a null pointer. -/
theorem createDevice_names_witness :
    createDevice ⟨"ILE", "Dual ILE", "Dual ILE 700"⟩ (some "Dual ILE 700") =
      some (ILEDeviceKind.dualILE true) ∧
    createDevice ⟨"ILE", "Dual ILE", "Dual ILE 700"⟩ (some "ThorCam") = none := by
  have h := createDevice_names_spec ⟨"ILE", "Dual ILE", "Dual ILE 700"⟩
    (by decide) (by decide) (by decide)
  exact ⟨((h.2 "Dual ILE 700").2.2.1).mpr rfl,
    ((h.2 "ThorCam").2.2.2).mpr (by decide)⟩

/-- Claim C8: OnDeviceChange with a DeviceIndex at or beyond the number of
configured device-name slots returns ERR_DEVICE_INDEXINVALID without
reading or writing the device-names array (for any long value of the
index, i.e. any index below 2^64 after the size_t conversion); when the
guard passes, the converted index is strictly below the array length, so
the indexing in the get and set branches is in bounds. -/
theorem onDeviceChange_bounds (names : List String) (idx : Int)
    (act : MMAction) (v : String) :
    ((names.length : Int) ≤ idx → idx < 2 ^ 64 →
      onDeviceChange names idx act v = (ERR_DEVICE_INDEXINVALID, names, none)) ∧
    (names.length ≤ asSizeT idx ∨
      (asSizeT idx < names.length ∧
        (∃ nm, onDeviceChange names idx MMAction.beforeGet v =
          (DEVICE_OK, names, some nm)) ∧
        onDeviceChange names idx MMAction.afterSet v =
          (DEVICE_OK, names.set (asSizeT idx) v, none))) := by
  constructor
  · intro h1 h2
    have h0 : 0 ≤ idx := le_trans (Int.ofNat_nonneg names.length) h1
    have hmod : idx % (2 : Int) ^ 64 = idx := Int.emod_eq_of_lt h0 h2
    have hsz : names.length ≤ asSizeT idx := by
      unfold asSizeT
      rw [hmod]
      exact (Int.le_toNat h0).mpr h1
    unfold onDeviceChange
    rw [if_pos hsz]
  · by_cases hg : names.length ≤ asSizeT idx
    · exact Or.inl hg
    · have hlt : asSizeT idx < names.length := Nat.lt_of_not_le hg
      refine Or.inr ⟨hlt, ⟨names.get ⟨asSizeT idx, hlt⟩, ?_⟩, ?_⟩
      · unfold onDeviceChange
        rw [if_neg hg]
        simp [List.get?_eq_get hlt]
      · unfold onDeviceChange
        rw [if_neg hg]

/-- Witness for C8: with two configured slots, index 5 is rejected with
ERR_DEVICE_INDEXINVALID and the slots are untouched. -/
theorem onDeviceChange_bounds_witness :
    onDeviceChange ["a", "b"] 5 MMAction.afterSet "x" =
      (ERR_DEVICE_INDEXINVALID, ["a", "b"], none) :=
  (onDeviceChange_bounds ["a", "b"] 5 MMAction.afterSet "x").1 (by decide)
    (by decide)

/-- When ResizeImageBuffer reports DEVICE_OK, the resulting state has the
driver memory allocated and the image buffer at full frame for the current
binning and pixel depth; nothing else changed. -/
theorem resizeImageBuffer_ok (s : CamState) (env : ResizeEnv)
    (h : (resizeImageBuffer s env).1 = DEVICE_OK) :
    (resizeImageBuffer s env).2 =
      { s with
        cameraBufAllocated := true,
        img := ⟨s.sensorInfo.nMaxWidth / s.binSize,
          s.sensorInfo.nMaxHeight / s.binSize,
          if s.bitDepth = 8 then 1 else 2⟩ } := by
  unfold resizeImageBuffer at h ⊢
  split at h
  · next hfree =>
    exfalso
    exact hfree.2 (by simpa [DEVICE_OK, IS_SUCCESS] using h)
  · next hfree =>
    split at h
    · next halloc =>
      exfalso
      exact halloc (by simpa [DEVICE_OK, IS_SUCCESS] using h)
    · next halloc =>
      rw [if_neg hfree, if_neg halloc]
      rfl

/-- When ResizeImageBuffer fails (the driver free or reallocation call
reports an error), the adapter image buffer is left untouched. -/
theorem resizeImageBuffer_fail (s : CamState) (env : ResizeEnv)
    (h : (resizeImageBuffer s env).1 ≠ DEVICE_OK) :
    (resizeImageBuffer s env).2.img = s.img := by
  unfold resizeImageBuffer at h ⊢
  split at h
  · next hfree =>
    rw [if_pos hfree]
  · next hfree =>
    rw [if_neg hfree]
    split at h
    · next halloc =>
      rw [if_pos halloc]
    · next halloc =>
      exact absurd rfl h

/-- A camera state whose image buffer has been cropped to 640x480 (for
example by an earlier nonzero SetROI) on the 1280x1024 binning-1 sensor. -/
def roiFailState : CamState :=
  { sampleCamState with img := ⟨640, 480, 1⟩ }

/-- Counterexample to C9 as stated: ClearROI discards ResizeImageBuffer's
result, so when the driver reallocation fails (is_AllocImageMem returning
IS_NO_SUCCESS) it still returns DEVICE_OK while the buffer stays at the
cropped 640x480 instead of the full frame nMaxWidth/binSize = 1280 by
nMaxHeight/binSize = 1024. -/
theorem roi_restore_counterexample :
    (clearROI roiFailState ⟨IS_SUCCESS, IS_NO_SUCCESS⟩).1 = DEVICE_OK ∧
    (clearROI roiFailState ⟨IS_SUCCESS, IS_NO_SUCCESS⟩).2.img = ⟨640, 480, 1⟩ ∧
    roiFailState.sensorInfo.nMaxWidth / roiFailState.binSize = 1280 ∧
    roiFailState.sensorInfo.nMaxHeight / roiFailState.binSize = 1024 := by
  decide

/-- Claim C9 (amended): SetROI with a size not both zero makes a
subsequent GetROI report exactly the requested rectangle; SetROI with both
sizes zero, like ClearROI, resets the origin to (0, 0) and restores the
buffer to the full frame for the current binning and pixel depth when the
driver buffer reallocation it triggers succeeds — the reallocation's
result is discarded, so on failure the buffer is left unrestored; SetROI,
GetROI and ClearROI always return DEVICE_OK. -/
theorem roi_get_set_spec (s : CamState) (x y xSize ySize : Nat)
    (env : ResizeEnv) :
    (¬ (xSize = 0 ∧ ySize = 0) →
      getROI (setROI s x y xSize ySize env).2 = (DEVICE_OK, x, y, xSize, ySize)) ∧
    ((resizeImageBuffer s env).1 = DEVICE_OK →
      ((setROI s x y 0 0 env).2.roiX = 0 ∧ (setROI s x y 0 0 env).2.roiY = 0 ∧
        (setROI s x y 0 0 env).2.img =
          ⟨s.sensorInfo.nMaxWidth / s.binSize, s.sensorInfo.nMaxHeight / s.binSize,
            if s.bitDepth = 8 then 1 else 2⟩) ∧
      ((clearROI s env).2.roiX = 0 ∧ (clearROI s env).2.roiY = 0 ∧
        (clearROI s env).2.img =
          ⟨s.sensorInfo.nMaxWidth / s.binSize, s.sensorInfo.nMaxHeight / s.binSize,
            if s.bitDepth = 8 then 1 else 2⟩)) ∧
    ((resizeImageBuffer s env).1 ≠ DEVICE_OK →
      (clearROI s env).1 = DEVICE_OK ∧ (clearROI s env).2.img = s.img ∧
      (setROI s x y 0 0 env).1 = DEVICE_OK ∧
      (setROI s x y 0 0 env).2.img = s.img) ∧
    ((setROI s x y xSize ySize env).1 = DEVICE_OK ∧
      (clearROI s env).1 = DEVICE_OK ∧ (getROI s).1 = DEVICE_OK) := by
  refine ⟨fun hnz => ?_, fun hok => ?_, fun hfail => ?_, ?_, ?_, rfl⟩
  · simp [setROI, getROI, hnz, ImgBuffer.resize2]
  · have hr := resizeImageBuffer_ok s env hok
    constructor
    · simp [setROI, hr]
    · simp [clearROI, hr]
  · refine ⟨rfl, ?_, ?_, ?_⟩
    · exact resizeImageBuffer_fail s env hfail
    · rfl
    · exact resizeImageBuffer_fail s env hfail
  · unfold setROI
    split <;> rfl
  · rfl

/-- Witness for C9: a concrete nonzero SetROI round-trips through GetROI,
and a concrete ClearROI restores the full frame. -/
theorem roi_get_set_witness :
    getROI (setROI sampleCamState 10 20 640 480 ⟨IS_SUCCESS, IS_SUCCESS⟩).2 =
      (DEVICE_OK, 10, 20, 640, 480) ∧
    (clearROI sampleCamState ⟨IS_SUCCESS, IS_SUCCESS⟩).2.img = ⟨1280, 1024, 1⟩ := by
  have h := roi_get_set_spec sampleCamState 10 20 640 480 ⟨IS_SUCCESS, IS_SUCCESS⟩
  exact ⟨h.1 (by decide), (h.2.1 (by decide)).2.2.2⟩

/-- Counterexample to C4 as stated: SetROI — one of the operations the
claim lists — returns DEVICE_OK after resizing the buffer to the requested
ROI, leaving width 640 instead of nMaxWidth/binSize = 1280, so the buffer
no longer matches the binning/pixel-depth settings. -/
theorem buffer_matches_counterexample :
    bufferMatchesSettings sampleCamState = true ∧
    (setROI sampleCamState 0 0 640 480 ⟨IS_SUCCESS, IS_SUCCESS⟩).1 = DEVICE_OK ∧
    bufferMatchesSettings
      (setROI sampleCamState 0 0 640 480 ⟨IS_SUCCESS, IS_SUCCESS⟩).2 = false := by
  decide

/-- Claim C4 (amended): after a completed DEVICE_OK initialization from an
uninitialized state, after a completed DEVICE_OK pixel-type change, and
after a DEVICE_OK buffer resize, the image buffer matches the current
binning and pixel-depth settings (width = nMaxWidth/binSize, height =
nMaxHeight/binSize, byte depth 1 for 8-bit and 2 for 16-bit).  A
DEVICE_OK binning change preserves a matching buffer: it resizes width
and height for the new binning but keeps the byte depth, so it cannot
repair a pre-existing depth mismatch.  ROI clear and both-zero SetROI
restore the matching full frame when the driver frame-buffer reallocation
they trigger succeeds (its result is discarded, so on failure they still
return DEVICE_OK with the buffer unrestored).  A SetROI with nonzero size
instead sets the buffer dimensions to the requested ROI size, keeping the
byte depth. -/
theorem buffer_matches_after_ops :
    (∀ (s : CamState) (env : InitEnv), s.initialized = false →
      (thorInit s env).1 = DEVICE_OK →
      bufferMatchesSettings (thorInit s env).2 = true) ∧
    (∀ (s : CamState) (b : Int), bufferMatchesSettings s = true →
      (onBinningAfterSet s b).1 = DEVICE_OK →
      bufferMatchesSettings (onBinningAfterSet s b).2 = true) ∧
    (∀ (s : CamState) (pt : String) (cr : Int) (env : ResizeEnv),
      (onPixelTypeAfterSet s pt cr env).1 = DEVICE_OK →
      bufferMatchesSettings (onPixelTypeAfterSet s pt cr env).2 = true) ∧
    (∀ (s : CamState) (env : ResizeEnv),
      (resizeImageBuffer s env).1 = DEVICE_OK →
      bufferMatchesSettings (resizeImageBuffer s env).2 = true) ∧
    (∀ (s : CamState) (x y : Nat) (env : ResizeEnv),
      (resizeImageBuffer s env).1 = DEVICE_OK →
      bufferMatchesSettings (clearROI s env).2 = true ∧
      bufferMatchesSettings (setROI s x y 0 0 env).2 = true) ∧
    (∀ (s : CamState) (x y xSize ySize : Nat) (env : ResizeEnv),
      ¬ (xSize = 0 ∧ ySize = 0) →
      (setROI s x y xSize ySize env).1 = DEVICE_OK ∧
      (setROI s x y xSize ySize env).2.img.width = xSize ∧
      (setROI s x y xSize ySize env).2.img.height = ySize ∧
      (setROI s x y xSize ySize env).2.img.depth = s.img.depth) := by
  have hresize : ∀ (s : CamState) (env : ResizeEnv),
      (resizeImageBuffer s env).1 = DEVICE_OK →
      bufferMatchesSettings (resizeImageBuffer s env).2 = true := by
    intro s env h
    rw [resizeImageBuffer_ok s env h]
    simp [bufferMatchesSettings]
  refine ⟨?_, ?_, ?_, hresize, ?_, ?_⟩
  · intro s env hinit h
    have g0 : ¬ s.initialized = true := by simp [hinit]
    simp only [thorInit] at h ⊢
    rw [if_neg g0] at h ⊢
    by_cases c1 : env.initCameraRet ≠ IS_SUCCESS
    · rw [if_pos c1] at h
      exact absurd h c1
    · rw [if_neg c1] at h ⊢
      by_cases c2 : env.getCameraInfoRet ≠ IS_SUCCESS
      · rw [if_pos c2] at h
        exact absurd h c2
      · rw [if_neg c2] at h ⊢
        by_cases c3 : env.getSensorInfoRet ≠ IS_SUCCESS
        · rw [if_pos c3] at h
          exact absurd h c3
        · rw [if_neg c3] at h ⊢
          by_cases c4 : env.setDisplayModeRet ≠ IS_SUCCESS
          · rw [if_pos c4] at h
            exact absurd h c4
          · rw [if_neg c4] at h ⊢
            by_cases c5 : env.setColorModeRet ≠ IS_SUCCESS
            · rw [if_pos c5] at h
              exact absurd h c5
            · rw [if_neg c5] at h ⊢
              by_cases c6 : env.setAllowedBinningRet ≠ DEVICE_OK
              · rw [if_pos c6] at h
                exact absurd h c6
              · rw [if_neg c6] at h ⊢
                by_cases c7 : env.setAllowedPixelRet ≠ DEVICE_OK
                · rw [if_pos c7] at h
                  exact absurd h c7
                · rw [if_neg c7] at h ⊢
                  by_cases c8 : env.pixelClockRangeRet ≠ IS_SUCCESS
                  · rw [if_pos c8] at h
                    exact absurd h c8
                  · rw [if_neg c8] at h ⊢
                    by_cases c9 : env.updateStatusRet ≠ DEVICE_OK
                    · rw [if_pos c9] at h
                      exact absurd h c9
                    · rw [if_neg c9] at h ⊢
                      split at h
                      · next hr => exact absurd h hr
                      · next hr =>
                        rw [if_neg hr]
                        rw [resizeImageBuffer_ok _ _ (not_ne_iff.mp hr)]
                        simp [bufferMatchesSettings, markInitialized]
  · intro s b hs h
    unfold onBinningAfterSet at h ⊢
    by_cases hcap : isCapturing s = true
    · rw [if_pos hcap] at h
      simp [DEVICE_CAMERA_BUSY_ACQUIRING, DEVICE_OK] at h
    · rw [if_neg hcap] at h ⊢
      by_cases hb : 0 < b ∧ b < 10
      · rw [if_pos hb] at h ⊢
        simp only [bufferMatchesSettings, ImgBuffer.resize2] at hs ⊢
        simp only [Bool.and_eq_true, decide_eq_true_eq] at hs ⊢
        exact ⟨⟨trivial, trivial⟩, hs.2⟩
      · rw [if_neg hb] at h
        simp [DEVICE_ERR, DEVICE_OK] at h
  · intro s pt cr env h
    unfold onPixelTypeAfterSet at h ⊢
    by_cases hcap : isCapturing s = true
    · rw [if_pos hcap] at h
      simp [DEVICE_CAMERA_BUSY_ACQUIRING, DEVICE_OK] at h
    · rw [if_neg hcap] at h ⊢
      by_cases h8 : pt = g_PixelType_8bit
      · rw [if_pos h8] at h ⊢
        by_cases hcr : cr ≠ IS_SUCCESS
        · rw [if_pos hcr] at h
          exact absurd h hcr
        · rw [if_neg hcr] at h ⊢
          exact hresize _ _ h
      · rw [if_neg h8] at h ⊢
        by_cases h16 : pt = g_PixelType_16bit
        · rw [if_pos h16] at h ⊢
          by_cases hcr : cr ≠ IS_SUCCESS
          · rw [if_pos hcr] at h
            exact absurd h hcr
          · rw [if_neg hcr] at h ⊢
            exact hresize _ _ h
        · rw [if_neg h16] at h
          simp [ERR_THORCAM_UNKNOWN_PIXEL_TYPE, DEVICE_OK] at h
  · intro s x y env h
    have hst := resizeImageBuffer_ok s env h
    constructor
    · simp [clearROI, hst, bufferMatchesSettings]
    · simp [setROI, hst, bufferMatchesSettings]
  · intro s x y xSize ySize env hnz
    simp [setROI, hnz, ImgBuffer.resize2]

/-- Witness for the amended C4: a concrete successful resize restores the
matching buffer, and a concrete nonzero SetROI reports the ROI size. -/
theorem buffer_matches_after_ops_witness :
    bufferMatchesSettings
      (resizeImageBuffer { sampleCamState with img := ⟨640, 480, 1⟩ }
        ⟨IS_SUCCESS, IS_SUCCESS⟩).2 = true ∧
    (setROI sampleCamState 0 0 320 240 ⟨IS_SUCCESS, IS_SUCCESS⟩).2.img.width = 320 := by
  refine ⟨buffer_matches_after_ops.2.2.2.1
    { sampleCamState with img := ⟨640, 480, 1⟩ } ⟨IS_SUCCESS, IS_SUCCESS⟩
    (by decide), ?_⟩
  exact (buffer_matches_after_ops.2.2.2.2.2 sampleCamState 0 0 320 240
    ⟨IS_SUCCESS, IS_SUCCESS⟩ (by decide)).2.1

/-- ResizeImageBuffer never touches initialized_. -/
theorem resizeImageBuffer_initialized (s : CamState) (env : ResizeEnv) :
    (resizeImageBuffer s env).2.initialized = s.initialized := by
  unfold resizeImageBuffer
  repeat' split
  all_goals rfl

/-- A camera-initialization environment in which is_InitCamera fails with
the vendor code IS_NO_SUCCESS and everything else succeeds. -/
def initFailEnv : InitEnv :=
  { initCameraRet := IS_NO_SUCCESS
    getCameraInfoRet := IS_SUCCESS
    getSensorInfoRet := IS_SUCCESS
    sensor := ⟨1280, 1024⟩
    setDisplayModeRet := IS_SUCCESS
    setColorModeRet := IS_SUCCESS
    setAllowedBinningRet := DEVICE_OK
    setAllowedPixelRet := DEVICE_OK
    pixelClockRangeRet := IS_SUCCESS
    updateStatusRet := DEVICE_OK
    resizeEnv := ⟨IS_SUCCESS, IS_SUCCESS⟩ }

/-- Counterexample to C6 as stated: when is_InitCamera fails with the
vendor code IS_NO_SUCCESS (-1), Initialize returns that raw vendor code,
which does not belong to the fixed host error-code enumeration; the
device does remain uninitialized. -/
theorem init_error_code_counterexample :
    (thorInit freshCamState initFailEnv).1 = IS_NO_SUCCESS ∧
    IS_NO_SUCCESS ∉ hostErrorCodes ∧
    (thorInit freshCamState initFailEnv).2.initialized = false := by
  decide

/-- Claim C6 (amended): whenever one of the six vendor SDK calls of
Initialize fails (the earlier ones having succeeded), Initialize stops and
returns that call's own vendor return code unchanged — not an element of
the host error-code enumeration in general — and initialized_ stays
false on every path that does not return DEVICE_OK. -/
theorem init_vendor_passthrough (s : CamState) (env : InitEnv)
    (hinit : s.initialized = false) :
    ((thorInit s env).1 ≠ DEVICE_OK → (thorInit s env).2.initialized = false) ∧
    (env.initCameraRet ≠ IS_SUCCESS →
      (thorInit s env).1 = env.initCameraRet) ∧
    (env.initCameraRet = IS_SUCCESS → env.getCameraInfoRet ≠ IS_SUCCESS →
      (thorInit s env).1 = env.getCameraInfoRet) ∧
    (env.initCameraRet = IS_SUCCESS → env.getCameraInfoRet = IS_SUCCESS →
      env.getSensorInfoRet ≠ IS_SUCCESS →
      (thorInit s env).1 = env.getSensorInfoRet) ∧
    (env.initCameraRet = IS_SUCCESS → env.getCameraInfoRet = IS_SUCCESS →
      env.getSensorInfoRet = IS_SUCCESS → env.setDisplayModeRet ≠ IS_SUCCESS →
      (thorInit s env).1 = env.setDisplayModeRet) ∧
    (env.initCameraRet = IS_SUCCESS → env.getCameraInfoRet = IS_SUCCESS →
      env.getSensorInfoRet = IS_SUCCESS → env.setDisplayModeRet = IS_SUCCESS →
      env.setColorModeRet ≠ IS_SUCCESS →
      (thorInit s env).1 = env.setColorModeRet) ∧
    (env.initCameraRet = IS_SUCCESS → env.getCameraInfoRet = IS_SUCCESS →
      env.getSensorInfoRet = IS_SUCCESS → env.setDisplayModeRet = IS_SUCCESS →
      env.setColorModeRet = IS_SUCCESS → env.setAllowedBinningRet = DEVICE_OK →
      env.setAllowedPixelRet = DEVICE_OK → env.pixelClockRangeRet ≠ IS_SUCCESS →
      (thorInit s env).1 = env.pixelClockRangeRet) := by
  have g0 : ¬ s.initialized = true := by simp [hinit]
  refine ⟨?_, ?_, ?_, ?_, ?_, ?_, ?_⟩
  · intro hne
    simp only [thorInit] at hne ⊢
    rw [if_neg g0] at hne ⊢
    by_cases c1 : env.initCameraRet ≠ IS_SUCCESS
    · rw [if_pos c1]
      exact hinit
    · rw [if_neg c1] at hne ⊢
      by_cases c2 : env.getCameraInfoRet ≠ IS_SUCCESS
      · rw [if_pos c2]
        exact hinit
      · rw [if_neg c2] at hne ⊢
        by_cases c3 : env.getSensorInfoRet ≠ IS_SUCCESS
        · rw [if_pos c3]
          exact hinit
        · rw [if_neg c3] at hne ⊢
          by_cases c4 : env.setDisplayModeRet ≠ IS_SUCCESS
          · rw [if_pos c4]
            exact hinit
          · rw [if_neg c4] at hne ⊢
            by_cases c5 : env.setColorModeRet ≠ IS_SUCCESS
            · rw [if_pos c5]
              exact hinit
            · rw [if_neg c5] at hne ⊢
              by_cases c6 : env.setAllowedBinningRet ≠ DEVICE_OK
              · rw [if_pos c6]
                exact hinit
              · rw [if_neg c6] at hne ⊢
                by_cases c7 : env.setAllowedPixelRet ≠ DEVICE_OK
                · rw [if_pos c7]
                  exact hinit
                · rw [if_neg c7] at hne ⊢
                  by_cases c8 : env.pixelClockRangeRet ≠ IS_SUCCESS
                  · rw [if_pos c8]
                    exact hinit
                  · rw [if_neg c8] at hne ⊢
                    by_cases c9 : env.updateStatusRet ≠ DEVICE_OK
                    · rw [if_pos c9]
                      exact hinit
                    · rw [if_neg c9] at hne ⊢
                      split at hne
                      · next hr =>
                        rw [if_pos hr]
                        exact (resizeImageBuffer_initialized _ _).trans hinit
                      · next hr =>
                        exact absurd rfl hne
  · intro c1
    simp [thorInit, g0, c1]
  · intro c1 c2
    simp [thorInit, g0, c1, c2]
  · intro c1 c2 c3
    simp [thorInit, g0, c1, c2, c3]
  · intro c1 c2 c3 c4
    simp [thorInit, g0, c1, c2, c3, c4]
  · intro c1 c2 c3 c4 c5
    simp [thorInit, g0, c1, c2, c3, c4, c5]
  · intro c1 c2 c3 c4 c5 c6 c7 c8
    simp [thorInit, g0, c1, c2, c3, c4, c5, c6, c7, c8]

/-- Witness for the amended C6: a concrete is_GetCameraInfo failure with
vendor code 3 is passed through unchanged. -/
theorem init_vendor_passthrough_witness :
    (thorInit freshCamState
      { initFailEnv with initCameraRet := IS_SUCCESS, getCameraInfoRet := 3 }).1 = 3 := by
  have h := init_vendor_passthrough freshCamState
    { initFailEnv with initCameraRet := IS_SUCCESS, getCameraInfoRet := 3 } rfl
  exact h.2.2.1 rfl (by decide)

/-- One iteration of the svc loop: it stops and returns the iteration's
ThreadRun result exactly when that result is not DEVICE_OK, or the single
stop-flag check observed a stop, or the image counter has reached
numImages - 1; otherwise it continues with the counter incremented. -/
theorem svcLoop_cons (n c : Int) (e : IterEnv) (es : List IterEnv) :
    svcLoop n (e :: es) c =
      if threadRun e.wait e.insertRet ≠ DEVICE_OK ∨ e.stopObserved = true ∨
          n - 1 ≤ c then
        some (threadRun e.wait e.insertRet, 1)
      else
        (svcLoop n es (c + 1)).map (fun p => (p.1, p.2 + 1)) := by
  simp only [svcLoop]
  by_cases h1 : threadRun e.wait e.insertRet = DEVICE_OK
  · by_cases h2 : e.stopObserved = true
    · rw [if_neg (fun hand => Bool.noConfusion (h2.symm.trans hand.2)),
        if_pos (Or.inr (Or.inl h2))]
    · have h2' : e.stopObserved = false := by
        cases hb : e.stopObserved
        · rfl
        · exact absurd hb h2
      by_cases h3 : c < n - 1
      · have hcond : ¬ (threadRun e.wait e.insertRet ≠ DEVICE_OK ∨
            e.stopObserved = true ∨ n - 1 ≤ c) := by
          refine not_or.mpr ⟨not_not_intro h1, not_or.mpr ⟨?_, not_le.mpr h3⟩⟩
          simp [h2']
        rw [if_pos ⟨h1, h2'⟩, if_pos h3, if_neg hcond]
      · rw [if_pos ⟨h1, h2'⟩, if_neg h3, if_pos (Or.inr (Or.inr (not_lt.mp h3)))]
  · rw [if_neg (fun hand => h1 hand.1), if_pos (Or.inl h1)]

/-- In the stop-at-T acquisition timeline, when the stop request falls
after the guard of iteration i-1 and at or before the guard of iteration i
(all frames arriving within the 2000 ms window and inserting fine, the
image-count bound not yet reached), the loop runs exactly i+1 complete
iterations: the wait in progress when the stop arrives runs to completion
and the stop takes effect at the guard right after it. -/
theorem svcLoop_stopScenario_aux (i : Nat) :
    ∀ (delays : List (Option Nat)) (e T : Nat) (n c : Int),
      i < delays.length →
      (∀ j, j ≤ i → ∃ d, delays.get? j = some (some d) ∧ d < 2000) →
      e + clockAfter delays i < T →
      T ≤ e + clockAfter delays (i + 1) →
      c + (i : Int) < n - 1 →
      svcLoop n (stopScenario T delays e) c = some (DEVICE_OK, i + 1) := by
  induction i with
  | zero =>
    intro delays e T n c hlen hev h1 h2 hcnt
    cases delays with
    | nil => simp at hlen
    | cons d ds =>
      obtain ⟨d0, hd, hd2000⟩ := hev 0 (Nat.le_refl 0)
      simp only [List.get?] at hd
      rw [Option.some.injEq] at hd
      subst hd
      have hwf : waitForFrame (some d0) = (WaitStatus.object0, d0) := by
        simp [waitForFrame, hd2000]
      have hck : clockAfter (some d0 :: ds) 1 = d0 := by
        simp [clockAfter, hwf]
      rw [hck] at h2
      have hobs : decide (T ≤ e + (waitForFrame (some d0)).2) = true := by
        rw [hwf]
        exact decide_eq_true h2
      simp only [stopScenario]
      rw [svcLoop_cons]
      rw [if_pos (Or.inr (Or.inl (by simpa using hobs)))]
      rw [hwf]
      rfl

  | succ i ih =>
    intro delays e T n c hlen hev h1 h2 hcnt
    cases delays with
    | nil => simp at hlen
    | cons d ds =>
      obtain ⟨d0, hd, hd2000⟩ := hev 0 (Nat.zero_le _)
      simp only [List.get?] at hd
      rw [Option.some.injEq] at hd
      subst hd
      have hwf : waitForFrame (some d0) = (WaitStatus.object0, d0) := by
        simp [waitForFrame, hd2000]
      have hck1 : clockAfter (some d0 :: ds) (i + 1) = d0 + clockAfter ds i := by
        simp [clockAfter, hwf]
      have hck2 : clockAfter (some d0 :: ds) (i + 2) = d0 + clockAfter ds (i + 1) := by
        simp [clockAfter, hwf]
      have hlt : e + d0 < T := by
        rw [hck1] at h1
        omega
      have hobs : decide (T ≤ e + (waitForFrame (some d0)).2) = false := by
        rw [hwf]
        exact decide_eq_false (by omega)
      have hcnt0 : c < n - 1 := by
        push_cast at hcnt
        omega
      have hih := ih ds (e + d0) T n (c + 1)
        (Nat.lt_of_succ_lt_succ hlen)
        (fun j hj => by simpa using hev (j + 1) (Nat.succ_le_succ hj))
        (by rw [hck1] at h1; omega)
        (by rw [hck2] at h2; omega)
        (by push_cast at hcnt ⊢; omega)
      simp only [stopScenario]
      rw [svcLoop_cons]
      rw [if_neg ?hcond]
      case hcond =>
        refine not_or.mpr ⟨?_, not_or.mpr ⟨?_, not_le.mpr hcnt0⟩⟩
        · intro hne
          exact hne (by rw [hwf]; rfl)
        · simp [hobs]
      have hd2 : (waitForFrame (some d0)).2 = d0 := by rw [hwf]
      rw [hd2, hih]
      rfl

/-- Claim C2: the svc loop checks the stop flag once per iteration and
terminates exactly when ThreadRun returned a code other than DEVICE_OK, or
a stop was observed, or the image counter reached numImages - 1 (first
conjunct, the per-iteration guard); and a Stop() issued at absolute time T
while ThreadRun is blocked on the frame event takes effect only after that
wait returns — with frames arriving within the fixed 2000 ms window the
loop completes the full iteration in progress when T falls between guard i
and guard i+1, exiting only at guard i+1 (second conjunct). -/
theorem svc_loop_stop_semantics :
    (∀ (n c : Int) (e : IterEnv) (es : List IterEnv),
      svcLoop n (e :: es) c =
        if threadRun e.wait e.insertRet ≠ DEVICE_OK ∨ e.stopObserved = true ∨
            n - 1 ≤ c then
          some (threadRun e.wait e.insertRet, 1)
        else
          (svcLoop n es (c + 1)).map (fun p => (p.1, p.2 + 1))) ∧
    (∀ (i : Nat) (delays : List (Option Nat)) (T : Nat) (n c : Int),
      i < delays.length →
      (∀ j, j ≤ i → ∃ d, delays.get? j = some (some d) ∧ d < 2000) →
      clockAfter delays i < T →
      T ≤ clockAfter delays (i + 1) →
      c + (i : Int) < n - 1 →
      svcLoop n (stopScenario T delays 0) c = some (DEVICE_OK, i + 1)) := by
  refine ⟨svcLoop_cons, ?_⟩
  intro i delays T n c hlen hev h1 h2 hcnt
  exact svcLoop_stopScenario_aux i delays 0 T n c hlen hev (by simpa using h1)
    (by simpa using h2) hcnt

/-- Witness for C2: three frames 5 ms apart, stop requested at T = 8 ms,
during the second wait; the loop completes the second iteration and exits
at its guard, having run exactly 2 iterations with final result
DEVICE_OK. -/
theorem svc_loop_stop_semantics_witness :
    svcLoop 100 (stopScenario 8 [some 5, some 5, some 5] 0) 0 =
      some (DEVICE_OK, 2) := by
  refine svc_loop_stop_semantics.2 1 [some 5, some 5, some 5] 8 100 0 (by decide)
    ?_ (by decide) (by decide) (by decide)
  intro j hj
  interval_cases j
  · exact ⟨5, rfl, by decide⟩
  · exact ⟨5, rfl, by decide⟩

end MMAdapters
